import Mathlib

/-!
Shallow embedding of the asynchronous YouTube-to-S3 ingestion job engine of
the repository: `uploadVideosS3Handler`, `processVideosAsync`, `downloadVideo`
and `extractYoutubeId`.  JS number arithmetic on durations is modelled exactly
over `Rat`; the external world (the S3 listing and upload calls, the two
downloader backends, the filesystem) is modelled as explicit oracle inputs,
and the external calls the pipeline performs are recorded as an event list.
The job snapshots written to the in-memory registry (`jobsMap.set`, which a
poller can observe between awaits) are collected as a trace.
-/

namespace YtUploader

/-- Job lifecycle states, from the `JobStatus` interface in the source. -/
inductive Status
  | pending
  | processing
  | completed
  | failed
  deriving DecidableEq, Repr

/-- The `progress` record of a job: `current`/`total` item counts plus the
rounded percentage. -/
structure Progress where
  current : Nat
  total : Nat
  percentage : Int
  deriving DecidableEq, Repr

/-- The `JobStatus` record stored in `jobsMap`.  Optional fields of the
TypeScript interface become `Option`; `estimatedTimeRemaining` is in
milliseconds, modelled over `Rat` since JS computes it by float division. -/
structure JobStatus where
  id : String
  status : Status
  urls : List String
  error : Option String
  startTime : Nat
  completedTime : Option Nat
  progress : Option Progress
  estimatedTimeRemaining : Option Rat
  deriving DecidableEq, Repr

/-- The job record created by `uploadVideosS3Handler` before the background
pipeline is scheduled (status `pending`, empty `urls`, no progress yet). -/
def initialJob (jobId : String) (startTime : Nat) : JobStatus :=
  { id := jobId
    status := Status.pending
    urls := []
    error := none
    startTime := startTime
    completedTime := none
    progress := none
    estimatedTimeRemaining := none }

/-- Whether `pat` occurs as a contiguous substring of `l` (JS `String.prototype.includes`). -/
def listContainsSub (pat : List Char) : List Char → Bool
  | [] => pat.isEmpty
  | c :: rest => List.isPrefixOf pat (c :: rest) || listContainsSub pat rest

/-- JS `url.includes(pat)`. -/
def strContains (s pat : String) : Bool :=
  listContainsSub pat.toList s.toList

/-- The URL-shape validation at the top of the per-item loop:
`url.includes('youtube.com/watch') || url.includes('youtu.be/')`
(the source throws when both fail). -/
def validUrl (url : String) : Bool :=
  strContains url "youtube.com/watch" || strContains url "youtu.be/"

/-- JS `\w` character class: `[A-Za-z0-9_]`. -/
def isWordCharJS (c : Char) : Bool :=
  ('a' ≤ c && c ≤ 'z') || ('A' ≤ c && c ≤ 'Z') || ('0' ≤ c && c ≤ '9') || c = '_'

/-- JS `.` character class (anything but a line terminator). -/
def jsDotChar (c : Char) : Bool :=
  !(c = '\n' || c = '\r' || c = Char.ofNat 0x2028 || c = Char.ofNat 0x2029)

/-- The `u\/\w\/` alternative of the `extractYoutubeId` regex. -/
def uSlashWordSlash : List Char → Bool
  | 'u' :: '/' :: c :: '/' :: _ => isWordCharJS c
  | _ => false

/-- One attempt of the group-1 alternation
`(youtu\.be\/|v\/|u\/\w\/|embed\/|watch\?v=|\&v=)` at the head of `l`,
trying the alternatives in regex order; returns the input remaining after the
matched delimiter. -/
def matchAltAt (l : List Char) : Option (List Char) :=
  if List.isPrefixOf "youtu.be/".toList l then some (l.drop 9)
  else if List.isPrefixOf "v/".toList l then some (l.drop 2)
  else if uSlashWordSlash l then some (l.drop 4)
  else if List.isPrefixOf "embed/".toList l then some (l.drop 6)
  else if List.isPrefixOf "watch?v=".toList l then some (l.drop 8)
  else if List.isPrefixOf "&v=".toList l then some (l.drop 3)
  else none

/-- The function `extractYoutubeId` from the source: match
`/^.*(youtu\.be\/|v\/|u\/\w\/|embed\/|watch\?v=|\&v=)([^#\&\?]*).*/` against
the url and return group 2 when its length is 11.  The greedy `^.*` makes the
engine pick the last position (reachable over non-line-terminator characters)
at which an alternative of group 1 matches; group 2 then greedily takes every
following character that is not `#`, `&` or `?`. -/
def extractYoutubeId (url : String) : Option String :=
  let l := url.toList
  let maxPos := (l.takeWhile jsDotChar).length
  match (List.range (maxPos + 1)).reverse.findSome? (fun pos => matchAltAt (l.drop pos)) with
  | none => none
  | some rest =>
      let g2 := rest.takeWhile (fun c => !(c = '#' || c = '&' || c = '?'))
      if g2.length = 11 then some (String.mk g2) else none

/-- Destination-key derivation (source line: `` `youtube_${videoId}.mp4` ``). -/
def fileNameOf (videoId : String) : String :=
  "youtube_" ++ videoId ++ ".mp4"

/-- The durable public URL of an object
(`` `https://${bucket}.s3.${AWS_REGION}.amazonaws.com/${key}` ``). -/
def s3Url (bucket region key : String) : String :=
  "https://" ++ bucket ++ ".s3." ++ region ++ ".amazonaws.com/" ++ key

/-- JS `Math.round` on a non-negative value: floor of `q + 1/2`. -/
def jsRound (q : Rat) : Int :=
  ⌊q + 1 / 2⌋

/-- The progress record written after item `i` (0-based) of `total` items:
`{current: i + 1, total, percentage: Math.round(((i + 1) / total) * 100)}`. -/
def mkProgress (i total : Nat) : Progress :=
  { current := i + 1
    total := total
    percentage := jsRound ((((i : Rat) + 1) / (total : Rat)) * 100) }

/-- Oracle outcomes of the two downloader backends of `downloadVideo`:
whether the `youtube-dl-exec` call completes without throwing, whether the
downloaded file exists and is non-empty afterwards, whether the `ytdl-core`
streaming promise resolves (a rejection covers stream errors and the
180000 ms timeout), and the file check after it. -/
structure DlEnv where
  ydlExecOk : Bool
  fileOk1 : Bool
  ytdlCoreOk : Bool
  fileOk2 : Bool
  deriving DecidableEq, Repr

/-- The function `downloadVideo` from the source: try `youtube-dl-exec`, on any failure
(thrown call or empty/missing file) fall back to `ytdl-core`; report `false`
only when both backends fail.  The function never throws: every internal
failure is caught. -/
def downloadVideo (e : DlEnv) : Bool :=
  if e.ydlExecOk && e.fileOk1 then true
  else if e.ytdlCoreOk && e.fileOk2 then true
  else false

/-- Oracle inputs for one iteration of the per-item loop: whether
`ytdl.getInfo` succeeds (its failure is only logged), the downloader backend
outcomes, whether the S3 `PutObjectCommand` throws, and the elapsed wall time
`Date.now() - videoStartTime` observed on the success path (milliseconds). -/
structure ItemEnv where
  infoOk : Bool
  dl : DlEnv
  uploadErr : Option String
  elapsedMs : Rat
  deriving DecidableEq, Repr

/-- The mutable state of one run of `processVideosAsync`: the job record (as
stored in `jobsMap`), the local `publicUrls`, the running totals
`totalProcessingTime` and `successCount`, and the job-local `existingFiles`
snapshot of destination keys. -/
structure LoopState where
  job : JobStatus
  publicUrls : List String
  totalProcessingTime : Rat
  successCount : Nat
  existingFiles : List String
  deriving DecidableEq, Repr

/-- External calls made by the pipeline, recorded in order. -/
inductive Event
  | mkdtemp
  | listObjects
  | getInfo (url : String)
  | download (url : String)
  | upload (key : String)
  | rmTemp
  deriving DecidableEq, Repr

/-- The ETA recomputation of the duplicate and the upload-success paths:
`avgTimePerVideo = successCount > 0 ? totalProcessingTime / successCount
: totalProcessingTime`, multiplied by `videoUrls.length - (i + 1)`. -/
def etaSuccessDup (tot : Rat) (sc : Nat) (i total : Nat) : Rat :=
  (if 0 < sc then tot / (sc : Rat) else tot) * ((total : Rat) - ((i : Rat) + 1))

/-- The ETA recomputation of the generic per-item catch:
`avgTimePerVideo = successCount > 0 ? totalProcessingTime / successCount
: totalProcessingTime / Math.max(1, i)`. -/
def etaCatch (tot : Rat) (sc : Nat) (i total : Nat) : Rat :=
  (if 0 < sc then tot / (sc : Rat) else tot / ((max 1 i : Nat) : Rat)) *
    ((total : Rat) - ((i : Rat) + 1))

/-- The duplicate path (destination key already in `existingFiles`): append
the synthesized durable URL to `publicUrls` and `Job.urls`, advance progress,
and when `i > 0` recompute the ETA from the pre-duplicate totals.  No
download or upload is performed. -/
def dupStep (bucket region : String) (total i : Nat) (fileName : String)
    (s : LoopState) : LoopState :=
  let existingUrl := s3Url bucket region fileName
  { s with
    publicUrls := s.publicUrls ++ [existingUrl]
    job := { s.job with
      urls := s.job.urls ++ [existingUrl]
      progress := some (mkProgress i total)
      estimatedTimeRemaining :=
        if 0 < i then some (etaSuccessDup s.totalProcessingTime s.successCount i total)
        else s.job.estimatedTimeRemaining } }

/-- The download-failure path (`catch (downloadError)`): only progress is
updated; no URL is appended and the ETA is left untouched. -/
def dlFailStep (total i : Nat) (s : LoopState) : LoopState :=
  { s with job := { s.job with progress := some (mkProgress i total) } }

/-- The generic per-item catch (invalid URL shape, failed id extraction,
missing AWS region, thrown upload): progress is updated and, when `i > 0`,
the ETA is recomputed with the `Math.max(1, i)` fallback divisor. -/
def catchStep (total i : Nat) (s : LoopState) : LoopState :=
  { s with job := { s.job with
      progress := some (mkProgress i total)
      estimatedTimeRemaining :=
        if 0 < i then some (etaCatch s.totalProcessingTime s.successCount i total)
        else s.job.estimatedTimeRemaining } }

/-- The upload-success path: push the public URL, increment `successCount`,
append the destination key to `existingFiles`, append the URL to `Job.urls`,
add the elapsed time to `totalProcessingTime`, advance progress, and when
`i > 0` recompute the ETA from the updated totals. -/
def successStep (bucket region : String) (total i : Nat) (fileName : String)
    (elapsed : Rat) (s : LoopState) : LoopState :=
  let publicUrl := s3Url bucket region fileName
  let sc := s.successCount + 1
  let tot := s.totalProcessingTime + elapsed
  { job := { s.job with
      urls := s.job.urls ++ [publicUrl]
      progress := some (mkProgress i total)
      estimatedTimeRemaining :=
        if 0 < i then some (etaSuccessDup tot sc i total)
        else s.job.estimatedTimeRemaining }
    publicUrls := s.publicUrls ++ [publicUrl]
    totalProcessingTime := tot
    successCount := sc
    existingFiles := s.existingFiles ++ [fileName] }

/-- One iteration of the per-item loop of `processVideosAsync` for item `i`
with url `url`, returning the updated state and the external calls made.
Branch order follows the source: URL-shape validation, id extraction, the
`existingFiles.some(key => key === fileName)` duplicate check, `ytdl.getInfo`
(best effort), `downloadVideo`, the `AWS_REGION` guard, and the S3 upload. -/
def processItem (bucket region : String) (total i : Nat) (url : String)
    (env : ItemEnv) (s : LoopState) : LoopState × List Event :=
  if !(validUrl url) then (catchStep total i s, [])
  else
    match extractYoutubeId url with
    | none => (catchStep total i s, [])
    | some videoId =>
      let fileName := fileNameOf videoId
      if s.existingFiles.any (fun key => key == fileName) then
        (dupStep bucket region total i fileName s, [])
      else
        let evts := [Event.getInfo url, Event.download url]
        if !(downloadVideo env.dl) then (dlFailStep total i s, evts)
        else if region = "" then (catchStep total i s, evts)
        else
          match env.uploadErr with
          | some _ => (catchStep total i s, evts ++ [Event.upload fileName])
          | none =>
            (successStep bucket region total i fileName env.elapsedMs s,
             evts ++ [Event.upload fileName])

/-- The per-item loop, processing the `(url, oracle)` pairs sequentially from
index `i`.  Returns the final state, the job snapshots written to `jobsMap`
after each item (one per item, at the synchronous end of its iteration), and
the concatenated external calls. -/
def runItems (bucket region : String) (total : Nat) :
    Nat → List (String × ItemEnv) → LoopState →
    LoopState × List JobStatus × List Event
  | _, [], s => (s, [], [])
  | i, p :: rest, s =>
    let step := processItem bucket region total i p.1 p.2 s
    let next := runItems bucket region total (i + 1) rest step.1
    (next.1, step.1.job :: next.2.1, step.2 ++ next.2.2)

/-- The state reached after the given items (first component of `runItems`). -/
def runState (bucket region : String) (total i : Nat)
    (ps : List (String × ItemEnv)) (s : LoopState) : LoopState :=
  (runItems bucket region total i ps s).1

/-- Oracle inputs of one full run of `processVideosAsync`: whether
`fs.mkdtempSync` succeeds (and the thrown message when not), the result of
the initial `ListObjectsV2Command` (its own try/catch makes a failure leave
`existingFiles` empty), the per-item oracles, whether the final `fs.rmSync`
of the temp dir succeeds (its failure is only logged), and the `Date.now()`
value observed at termination. -/
structure PipelineEnv where
  mkdtempOk : Bool
  mkdtempErrMsg : String
  listResult : Except String (List String)
  items : List ItemEnv
  rmOk : Bool
  endTime : Nat
  deriving Repr

/-- Result of a run: the terminal job record, the trace of job snapshots
written to `jobsMap` (in write order, the terminal record last), and the
external calls made. -/
structure RunResult where
  job : JobStatus
  trace : List JobStatus
  events : List Event
  deriving DecidableEq, Repr

/-- The orchestrator `processVideosAsync` from the source, composed with the `.catch` that
`uploadVideosS3Handler` attaches to it.  The job is first marked
`processing` with progress `{0, total, 0}`; then the temp directory is
created — if `fs.mkdtempSync` throws, the rejection is caught by the
submit handler which marks the job `failed` (leaving progress untouched).
Otherwise the S3 listing seeds `existingFiles` (empty on listing failure),
the items run sequentially, and the job is marked `completed` with progress
`{total, total, 100}`, a zero ETA and a completion time.  Nothing inside the
loop can escape its per-item catch, so the outer catch of the source is
unreachable; the `finally` removes the temp dir on every path that created
it, and a removal failure (`rmOk = false`) is only logged. -/
def processVideosAsync (job0 : JobStatus) (videoUrls : List String)
    (bucket region : String) (env : PipelineEnv) : RunResult :=
  let total := videoUrls.length
  let jobP := { job0 with
    status := Status.processing
    progress := some { current := 0, total := total, percentage := 0 } }
  match env.mkdtempOk with
  | false =>
    let jobF := { jobP with
      status := Status.failed
      error := some env.mkdtempErrMsg
      completedTime := some env.endTime }
    { job := jobF, trace := [jobP, jobF], events := [] }
  | true =>
    let existingFiles := match env.listResult with
      | Except.ok keys => keys
      | Except.error _ => []
    let s0 : LoopState := { job := jobP, publicUrls := []
                            totalProcessingTime := 0, successCount := 0
                            existingFiles := existingFiles }
    let run := runItems bucket region total 0 (videoUrls.zip env.items) s0
    let jobC := { run.1.job with
      status := Status.completed
      progress := some { current := total, total := total, percentage := 100 }
      estimatedTimeRemaining := some 0
      completedTime := some env.endTime }
    { job := jobC
      trace := jobP :: run.2.1 ++ [jobC]
      events := [Event.mkdtemp, Event.listObjects] ++ run.2.2 ++ [Event.rmTemp] }

/-- The submit handler `uploadVideosS3Handler`, up to the scheduling of the background pipeline:
validate the request (`videoUrls` must be a non-empty array, a bucket must
resolve), then create the pending job in the registry and return the job id.
`videoUrls = none` models a non-array argument.  The returned registry is the
registry after the call: the two validation failures throw before
`jobsMap.set`, so they leave it unchanged. -/
def uploadVideosS3Handler (videoUrls : Option (List String))
    (bucketName : Option String) (awsBucket : String)
    (registry : List (String × JobStatus)) (newJobId : String) (now : Nat) :
    List (String × JobStatus) × Except String String :=
  match videoUrls with
  | none => (registry, Except.error "videoUrls must be a non-empty array of YouTube URLs")
  | some urls =>
    if urls.isEmpty then
      (registry, Except.error "videoUrls must be a non-empty array of YouTube URLs")
    else
      let bucket := match bucketName with
        | some b => if b = "" then awsBucket else b
        | none => awsBucket
      if bucket = "" then
        (registry, Except.error "No S3 bucket name configured or provided")
      else
        ((newJobId, initialJob newJobId now) :: registry, Except.ok newJobId)

/-- The `current` count of a job snapshot (0 when progress is not yet set). -/
def currOf (j : JobStatus) : Nat :=
  (j.progress.map Progress.current).getD 0

/-- A list of naturals is non-decreasing. -/
def nondecreasing : List Nat → Bool
  | a :: b :: rest => decide (a ≤ b) && nondecreasing (b :: rest)
  | _ => true

/-- The list `[a, a + 1, ..., a + n - 1]`. -/
def seqFrom (a : Nat) : Nat → List Nat
  | 0 => []
  | n + 1 => a :: seqFrom (a + 1) n

/-- Every snapshot of the trace that is `completed` has `current = total`. -/
def completedImpliesFull (trace : List JobStatus) : Bool :=
  trace.all fun j =>
    match j.status, j.progress with
    | Status.completed, some p => p.current == p.total
    | Status.completed, none => false
    | _, _ => true

/-- Every snapshot of the trace satisfies `urls.length ≤ progress.current`. -/
def urlsLeCurrent (trace : List JobStatus) : Bool :=
  trace.all fun j => decide (j.urls.length ≤ currOf j)

/-- The destination keys of the upload calls within an event list. -/
def uploadKeys (evts : List Event) : List String :=
  evts.filterMap fun e =>
    match e with
    | Event.upload k => some k
    | _ => none

/-- The per-item paths that assign `estimatedTimeRemaining` (given `i > 0`):
all of them except the download-failure catch, which only updates progress. -/
def etaAssigned (url : String) (env : ItemEnv) (s : LoopState) : Bool :=
  !(validUrl url &&
    (match extractYoutubeId url with
     | some videoId =>
       !(s.existingFiles.any (fun key => key == fileNameOf videoId)) &&
         !(downloadVideo env.dl)
     | none => false))
/-- The ETA value claim C3 specifies, taken at the totals of the state after
the item: the average item time — cumulative successful time over
`successCount` when positive, else over the `i + 1` items attempted so far —
times the remaining item count. -/
def etaSpec (t i : Nat) (tot : Rat) (sc : Nat) : Rat :=
  (if 0 < sc then tot / (sc : Rat) else tot / ((i : Rat) + 1)) *
    ((t : Rat) - ((i : Rat) + 1))

/-- A concrete well-formed YouTube reference, used by the witnesses. -/
def wUrl : String := "https://youtube.com/watch?v=abcdefghijk"

/-- The canonical identifier extracted from `wUrl`. -/
def wId : String := "abcdefghijk"

/-- An item oracle on which downloading and uploading succeed. -/
def wEnvOk : ItemEnv :=
  { infoOk := true, dl := ⟨true, true, true, true⟩, uploadErr := none, elapsedMs := 1000 }

/-- An item oracle on which every downloader backend fails. -/
def wEnvDlFail : ItemEnv :=
  { infoOk := true, dl := ⟨false, true, false, true⟩, uploadErr := none, elapsedMs := 0 }

/-- A pipeline oracle for a clean two-item run over an empty bucket. -/
def wPipeEnv : PipelineEnv :=
  { mkdtempOk := true, mkdtempErrMsg := "", listResult := Except.ok []
    items := [wEnvOk, wEnvOk], rmOk := true, endTime := 5000 }

/-- A pipeline oracle on which `fs.mkdtempSync` throws. -/
def wMkdtempFailEnv : PipelineEnv :=
  { mkdtempOk := false, mkdtempErrMsg := "ENOSPC: no space left on device"
    listResult := Except.ok [], items := [wEnvOk], rmOk := true, endTime := 50 }

/-- A pipeline oracle on which the initial S3 listing fails. -/
def wListFailEnv : PipelineEnv :=
  { mkdtempOk := true, mkdtempErrMsg := "", listResult := Except.error "AccessDenied"
    items := [wEnvOk], rmOk := true, endTime := 5000 }

/-- A loop state whose dedup snapshot already holds the key of `wId`. -/
def wState : LoopState :=
  { job := { initialJob "job-1" 0 with
      status := Status.processing
      progress := some { current := 0, total := 2, percentage := 0 } }
    publicUrls := [], totalProcessingTime := 0, successCount := 0
    existingFiles := [fileNameOf wId] }

/-- A loop state with an empty dedup snapshot. -/
def wStateEmpty : LoopState :=
  { job := { initialJob "job-1" 0 with
      status := Status.processing
      progress := some { current := 0, total := 3, percentage := 0 } }
    publicUrls := [], totalProcessingTime := 0, successCount := 0
    existingFiles := [] }

/-- No branch of the per-item loop changes the job's status. -/
theorem processItem_status (b r : String) (t i : Nat) (u : String) (e : ItemEnv) (s : LoopState) :
    ((processItem b r t i u e s).1).job.status = s.job.status := by
  unfold processItem
  dsimp only
  repeat' split
  all_goals simp [catchStep, dupStep, dlFailStep, successStep]

/-- Every branch of the per-item loop writes progress `mkProgress i total`. -/
theorem processItem_progress (b r : String) (t i : Nat) (u : String) (e : ItemEnv) (s : LoopState) :
    ((processItem b r t i u e s).1).job.progress = some (mkProgress i t) := by
  unfold processItem
  dsimp only
  repeat' split
  all_goals simp [catchStep, dupStep, dlFailStep, successStep]

/-- One item appends at most one URL to `Job.urls`. -/
theorem processItem_urlsLen (b r : String) (t i : Nat) (u : String) (e : ItemEnv) (s : LoopState) :
    ((processItem b r t i u e s).1).job.urls.length ≤ s.job.urls.length + 1 := by
  unfold processItem
  dsimp only
  repeat' split
  all_goals simp [catchStep, dupStep, dlFailStep, successStep]

/-- The dedup snapshot only grows during an item. -/
theorem processItem_existing_mem (b r : String) (t i : Nat) (u : String) (e : ItemEnv)
    (s : LoopState) (x : String) (hx : x ∈ s.existingFiles) :
    x ∈ ((processItem b r t i u e s).1).existingFiles := by
  unfold processItem
  dsimp only
  repeat' split
  all_goals simp [catchStep, dupStep, dlFailStep, successStep, hx]

/-- No item removes the temp directory. -/
theorem processItem_count_rmTemp (b r : String) (t i : Nat) (u : String) (e : ItemEnv)
    (s : LoopState) :
    ((processItem b r t i u e s).2).count Event.rmTemp = 0 := by
  unfold processItem
  dsimp only
  repeat' split
  all_goals simp [List.count_cons, List.count_nil, List.count_append]

/-- No item creates a temp directory. -/
theorem processItem_count_mkdtemp (b r : String) (t i : Nat) (u : String) (e : ItemEnv)
    (s : LoopState) :
    ((processItem b r t i u e s).2).count Event.mkdtemp = 0 := by
  unfold processItem
  dsimp only
  repeat' split
  all_goals simp [List.count_cons, List.count_nil, List.count_append]

/-- Branch characterization: invalid URL shape. -/
theorem processItem_invalid (b r : String) (t i : Nat) (u : String) (e : ItemEnv)
    (s : LoopState) (hv : validUrl u = false) :
    processItem b r t i u e s = (catchStep t i s, []) := by
  unfold processItem
  simp [hv]

/-- Branch characterization: id extraction fails. -/
theorem processItem_noId (b r : String) (t i : Nat) (u : String) (e : ItemEnv)
    (s : LoopState) (hv : validUrl u = true) (hx : extractYoutubeId u = none) :
    processItem b r t i u e s = (catchStep t i s, []) := by
  unfold processItem
  simp [hv, hx]

/-- Branch characterization: the destination key is already in the snapshot. -/
theorem processItem_dup (b r : String) (t i : Nat) (u : String) (e : ItemEnv) (s : LoopState)
    (videoId : String) (hv : validUrl u = true) (hx : extractYoutubeId u = some videoId)
    (hdup : (s.existingFiles.any fun key => key == fileNameOf videoId) = true) :
    processItem b r t i u e s = (dupStep b r t i (fileNameOf videoId) s, []) := by
  unfold processItem
  dsimp only
  rw [hv, hx]
  simp only [hdup, Bool.not_true, Bool.false_eq_true, if_false, if_true]

/-- Branch characterization: the downloader chain is exhausted. -/
theorem processItem_dlFail (b r : String) (t i : Nat) (u : String) (e : ItemEnv) (s : LoopState)
    (videoId : String) (hv : validUrl u = true) (hx : extractYoutubeId u = some videoId)
    (hdup : (s.existingFiles.any fun key => key == fileNameOf videoId) = false)
    (hdl : downloadVideo e.dl = false) :
    processItem b r t i u e s = (dlFailStep t i s, [Event.getInfo u, Event.download u]) := by
  unfold processItem
  dsimp only
  rw [hv, hx]
  simp only [hdup, hdl, Bool.not_true, Bool.not_false, Bool.false_eq_true, if_false, if_true]

/-- Branch characterization: the AWS region guard trips after a download. -/
theorem processItem_regionEmpty (b r : String) (t i : Nat) (u : String) (e : ItemEnv)
    (s : LoopState) (videoId : String)
    (hv : validUrl u = true) (hx : extractYoutubeId u = some videoId)
    (hdup : (s.existingFiles.any fun key => key == fileNameOf videoId) = false)
    (hdl : downloadVideo e.dl = true) (hr : r = "") :
    processItem b r t i u e s = (catchStep t i s, [Event.getInfo u, Event.download u]) := by
  unfold processItem
  dsimp only
  rw [hv, hx]
  simp only [hdup, hdl, hr, Bool.not_true, Bool.not_false, Bool.false_eq_true, if_false, if_true]

/-- Branch characterization: the S3 upload throws. -/
theorem processItem_uploadThrow (b r : String) (t i : Nat) (u : String) (e : ItemEnv)
    (s : LoopState) (videoId m : String)
    (hv : validUrl u = true) (hx : extractYoutubeId u = some videoId)
    (hdup : (s.existingFiles.any fun key => key == fileNameOf videoId) = false)
    (hdl : downloadVideo e.dl = true) (hr : ¬r = "") (hu : e.uploadErr = some m) :
    processItem b r t i u e s =
      (catchStep t i s, [Event.getInfo u, Event.download u, Event.upload (fileNameOf videoId)]) := by
  unfold processItem
  dsimp only
  rw [hv, hx, hu]
  simp only [hdup, hdl, hr, Bool.not_true, Bool.not_false, Bool.false_eq_true, if_false, if_true]
  rfl

/-- Branch characterization: download and upload both succeed. -/
theorem processItem_success (b r : String) (t i : Nat) (u : String) (e : ItemEnv) (s : LoopState)
    (videoId : String) (hv : validUrl u = true) (hx : extractYoutubeId u = some videoId)
    (hdup : (s.existingFiles.any fun key => key == fileNameOf videoId) = false)
    (hdl : downloadVideo e.dl = true) (hr : ¬r = "") (hu : e.uploadErr = none) :
    processItem b r t i u e s =
      (successStep b r t i (fileNameOf videoId) e.elapsedMs s,
       [Event.getInfo u, Event.download u, Event.upload (fileNameOf videoId)]) := by
  unfold processItem
  dsimp only
  rw [hv, hx, hu]
  simp only [hdup, hdl, hr, Bool.not_true, Bool.not_false, Bool.false_eq_true, if_false, if_true]
  rfl

/-- The duplicate check, expressed as list membership. -/
theorem anyKey_iff_mem (l : List String) (f : String) :
    (l.any fun k => k == f) = true ↔ f ∈ l := by
  rw [List.any_eq_true]
  constructor
  · rintro ⟨x, hx, hbeq⟩
    have hxf := eq_of_beq hbeq
    rwa [hxf] at hx
  · intro hf
    exact ⟨f, hf, by simp⟩

/-- The snapshot written after item `i` has `current = i + 1`. -/
theorem currOf_step (b r : String) (t i : Nat) (u : String) (e : ItemEnv) (s : LoopState) :
    currOf ((processItem b r t i u e s).1).job = i + 1 := by
  unfold currOf
  rw [processItem_progress]
  rfl

/-- The loop splits over an append of item lists. -/
theorem runItems_fst_append (b r : String) (t : Nat) (as bs : List (String × ItemEnv)) :
    ∀ (i : Nat) (s : LoopState),
      (runItems b r t i (as ++ bs) s).1 =
        (runItems b r t (i + as.length) bs (runItems b r t i as s).1).1 := by
  induction as with
  | nil => intro i s; simp [runItems]
  | cons p rest ih =>
    intro i s
    simp only [List.cons_append, runItems, List.length_cons, List.append_eq]
    rw [ih]
    congr 2
    omega

/-- The dedup snapshot only grows over the loop. -/
theorem runItems_existing_mem (b r : String) (t : Nat) (ps : List (String × ItemEnv)) :
    ∀ (i : Nat) (s : LoopState) (x : String), x ∈ s.existingFiles →
      x ∈ (runItems b r t i ps s).1.existingFiles := by
  induction ps with
  | nil => intro i s x hx; simpa [runItems] using hx
  | cons p rest ih =>
    intro i s x hx
    simp only [runItems]
    exact ih _ _ _ (processItem_existing_mem b r t i p.1 p.2 s x hx)

/-- Per-item snapshots never change the status. -/
theorem runItems_snap_status (b r : String) (t : Nat) (ps : List (String × ItemEnv)) :
    ∀ (i : Nat) (s : LoopState) (j : JobStatus), j ∈ (runItems b r t i ps s).2.1 →
      j.status = s.job.status := by
  induction ps with
  | nil => intro i s j hj; simp [runItems] at hj
  | cons p rest ih =>
    intro i s j hj
    simp only [runItems, List.mem_cons] at hj
    rcases hj with hj | hj
    · rw [hj]; exact processItem_status b r t i p.1 p.2 s
    · rw [ih _ _ _ hj]
      exact processItem_status b r t i p.1 p.2 s

/-- The `current` counts of the per-item snapshots are `i + 1, i + 2, ...`. -/
theorem runItems_currents (b r : String) (t : Nat) (ps : List (String × ItemEnv)) :
    ∀ (i : Nat) (s : LoopState),
      (runItems b r t i ps s).2.1.map currOf = seqFrom (i + 1) ps.length := by
  induction ps with
  | nil => intro i s; simp [runItems, seqFrom]
  | cons p rest ih =>
    intro i s
    simp only [runItems, List.map_cons, List.length_cons, seqFrom]
    rw [currOf_step, ih]

/-- A run `a, a + 1, ..., a + k - 1` capped by `t ≥ a + k` is non-decreasing. -/
theorem nd_aux :
    ∀ (k a t : Nat), a + k ≤ t → nondecreasing (a :: (seqFrom (a + 1) k ++ [t])) = true := by
  intro k
  induction k with
  | zero =>
    intro a t h
    have hat : a ≤ t := by omega
    simp [seqFrom, nondecreasing, hat]
  | succ n ih =>
    intro a t h
    have h' : a + 1 + n ≤ t := by omega
    simp only [seqFrom, List.cons_append, nondecreasing, List.append_eq]
    rw [ih (a + 1) t h']
    simp

/-- Along the loop, `urls.length` stays below the snapshot's `current`. -/
theorem runItems_urls_bound (b r : String) (t : Nat) (ps : List (String × ItemEnv)) :
    ∀ (i : Nat) (s : LoopState), s.job.urls.length ≤ i →
      ((∀ j ∈ (runItems b r t i ps s).2.1, j.urls.length ≤ currOf j) ∧
        (runItems b r t i ps s).1.job.urls.length ≤ i + ps.length) := by
  induction ps with
  | nil =>
    intro i s h
    refine ⟨by simp [runItems], ?_⟩
    simpa [runItems] using h
  | cons p rest ih =>
    intro i s h
    have hstep : (processItem b r t i p.1 p.2 s).1.job.urls.length ≤ i + 1 :=
      le_trans (processItem_urlsLen b r t i p.1 p.2 s) (by omega)
    obtain ⟨h1, h2⟩ := ih (i + 1) (processItem b r t i p.1 p.2 s).1 hstep
    constructor
    · intro j hj
      simp only [runItems, List.mem_cons] at hj
      rcases hj with rfl | hj
      · rw [currOf_step]
        exact hstep
      · exact h1 j hj
    · simp only [runItems, List.length_cons]
      omega

/-- The loop never removes the temp directory. -/
theorem runItems_count_rmTemp (b r : String) (t : Nat) (ps : List (String × ItemEnv)) :
    ∀ (i : Nat) (s : LoopState), (runItems b r t i ps s).2.2.count Event.rmTemp = 0 := by
  induction ps with
  | nil => intro i s; simp [runItems]
  | cons p rest ih =>
    intro i s
    simp only [runItems, List.count_append]
    rw [processItem_count_rmTemp, ih]

/-- The loop never creates a temp directory. -/
theorem runItems_count_mkdtemp (b r : String) (t : Nat) (ps : List (String × ItemEnv)) :
    ∀ (i : Nat) (s : LoopState), (runItems b r t i ps s).2.2.count Event.mkdtemp = 0 := by
  induction ps with
  | nil => intro i s; simp [runItems]
  | cons p rest ih =>
    intro i s
    simp only [runItems, List.count_append]
    rw [processItem_count_mkdtemp, ih]

/-- Every upload an item performs uses the key derived from its id. -/
theorem processItem_uploadKeys (b r : String) (t i : Nat) (u : String) (e : ItemEnv)
    (s : LoopState) (videoId : String) (hx : extractYoutubeId u = some videoId) :
    ((uploadKeys (processItem b r t i u e s).2).all
      fun k => k == fileNameOf videoId) = true := by
  unfold processItem
  dsimp only
  rw [hx]
  repeat' split
  all_goals simp_all [uploadKeys]

/-- A run whose temp directory was created always terminates `completed`. -/
theorem processVideosAsync_completed (job0 : JobStatus) (videoUrls : List String)
    (bucket region : String) (env : PipelineEnv) (hmk : env.mkdtempOk = true) :
    (processVideosAsync job0 videoUrls bucket region env).job.status = Status.completed := by
  unfold processVideosAsync
  rw [hmk]

/-- The catch-path ETA agrees with the claimed formula when time only
accumulates alongside successes. -/
theorem etaCatch_eq_spec (tot : Rat) (sc : Nat) (i t : Nat)
    (hinv : sc = 0 → tot = 0) :
    etaCatch tot sc i t = etaSpec t i tot sc := by
  rcases Nat.eq_zero_or_pos sc with h0 | hpos
  · rw [hinv h0]
    simp [etaCatch, etaSpec, h0]
  · simp [etaCatch, etaSpec, hpos]

/-- The duplicate- and success-path ETA agrees with the claimed formula when
time only accumulates alongside successes. -/
theorem etaSuccessDup_eq_spec (tot : Rat) (sc : Nat) (i t : Nat)
    (hinv : sc = 0 → tot = 0) :
    etaSuccessDup tot sc i t = etaSpec t i tot sc := by
  rcases Nat.eq_zero_or_pos sc with h0 | hpos
  · rw [hinv h0]
    simp [etaSuccessDup, etaSpec, h0]
  · simp [etaSuccessDup, etaSpec, hpos]
/-- C1 counterexample: when the creation of the ephemeral directory fails, the
job reaches the terminal status `failed` while `progress.current = 0` differs
from `progress.total = 1`, refuting the claim that `progress.current` equals
`progress.total` whenever the status is terminal (`completed` or `failed`). -/
theorem c1_counterexample :
    (processVideosAsync (initialJob "job-1" 0) [wUrl] "bkt" "us-west-2"
        wMkdtempFailEnv).job.status = Status.failed ∧
    (processVideosAsync (initialJob "job-1" 0) [wUrl] "bkt" "us-west-2"
        wMkdtempFailEnv).job.progress.map Progress.current ≠
      (processVideosAsync (initialJob "job-1" 0) [wUrl] "bkt" "us-west-2"
        wMkdtempFailEnv).job.progress.map Progress.total := by
  decide

/-- C1 (amended): over every run of the pipeline, the `progress.current`
values of the successive registry snapshots are monotonically non-decreasing,
and every snapshot whose status is `completed` has
`progress.current = progress.total`.  (The original claim also demanded
`current = total` at status `failed`; the counterexample shows a failed job
keeps the progress it had when it failed.) -/
theorem c1_progress_monotone (job0 : JobStatus) (videoUrls : List String)
    (bucket region : String) (env : PipelineEnv) :
    nondecreasing ((processVideosAsync job0 videoUrls bucket region env).trace.map currOf)
        = true ∧
      completedImpliesFull (processVideosAsync job0 videoUrls bucket region env).trace = true := by
  unfold processVideosAsync
  cases hmk : env.mkdtempOk with
  | false =>
    constructor
    · simp [nondecreasing, currOf]
    · simp [completedImpliesFull]
  | true =>
    constructor
    · have hcur : (runItems bucket region videoUrls.length 0
          (videoUrls.zip env.items)
          { job := { job0 with
              status := Status.processing
              progress := some { current := 0, total := videoUrls.length, percentage := 0 } }
            publicUrls := [], totalProcessingTime := 0, successCount := 0
            existingFiles := match env.listResult with
              | Except.ok keys => keys
              | Except.error _ => [] }).2.1.map currOf
          = seqFrom 1 (videoUrls.zip env.items).length :=
        runItems_currents _ _ _ _ _ _
      simp only [List.map_cons, List.map_append, List.map_cons, List.map_nil]
      rw [hcur]
      have hk : 0 + (videoUrls.zip env.items).length ≤ videoUrls.length := by
        rw [List.length_zip]
        omega
      have := nd_aux (videoUrls.zip env.items).length 0 videoUrls.length hk
      simpa [currOf] using this
    · rw [completedImpliesFull, List.all_eq_true]
      intro j hj
      simp only [List.mem_cons, List.mem_append, List.mem_singleton] at hj
      rcases hj with (h1 | h2) | h3 | h4
      · rw [h1]
      · have hst := runItems_snap_status _ _ _ _ _ _ _ h2
        rw [hst]
      · rw [h3]
        simp
      · exact absurd h4 (List.not_mem_nil _)

/-- C2: an item whose derived destination key is already present in the
dedup snapshot at the time it is processed makes no external call (in
particular no download and no upload), appends the synthesized durable URL
for the existing key to `Job.urls`, and advances `progress.current` by one. -/
theorem c2_duplicate (b r : String) (t i : Nat) (u : String) (e : ItemEnv) (s : LoopState)
    (videoId : String) (p : Progress)
    (hv : validUrl u = true) (hx : extractYoutubeId u = some videoId)
    (hdup : (s.existingFiles.any fun key => key == fileNameOf videoId) = true)
    (hp : s.job.progress = some p) (hc : p.current = i) :
    (processItem b r t i u e s).2 = [] ∧
    (processItem b r t i u e s).1.job.urls
        = s.job.urls ++ [s3Url b r (fileNameOf videoId)] ∧
    currOf (processItem b r t i u e s).1.job = currOf s.job + 1 := by
  rw [processItem_dup b r t i u e s videoId hv hx hdup]
  refine ⟨rfl, rfl, ?_⟩
  simp [currOf, dupStep, mkProgress, hp, hc]

/-- C3: after item `i`, `estimatedTimeRemaining` is assigned only on the
`etaAssigned` paths and only when `i > 0` — so it is never assigned by the
first item and stays unset until the second completes — and when assigned it
equals the average item time (`cumulative successful time / successCount`
when `successCount > 0`, else divided by the `i + 1` items attempted so far;
both sides are zero then, since time accumulates only with successes) times
the remaining item count.  On every other path it is left unchanged. -/
theorem c3_eta (b r : String) (t i : Nat) (u : String) (e : ItemEnv) (s : LoopState)
    (hinv : s.successCount = 0 → s.totalProcessingTime = 0) :
    (processItem b r t i u e s).1.job.estimatedTimeRemaining =
      if 0 < i ∧ etaAssigned u e s = true then
        some (etaSpec t i (processItem b r t i u e s).1.totalProcessingTime
          (processItem b r t i u e s).1.successCount)
      else s.job.estimatedTimeRemaining := by
  cases hv : validUrl u with
  | false =>
    rw [processItem_invalid b r t i u e s hv]
    have ha : etaAssigned u e s = true := by simp [etaAssigned, hv]
    simp only [ha, and_true, catchStep]
    by_cases hi : 0 < i
    · rw [if_pos hi, if_pos hi]
      rw [etaCatch_eq_spec _ _ _ _ hinv]
    · rw [if_neg hi, if_neg hi]
  | true =>
    cases hx : extractYoutubeId u with
    | none =>
      rw [processItem_noId b r t i u e s hv hx]
      have ha : etaAssigned u e s = true := by simp [etaAssigned, hv, hx]
      simp only [ha, and_true, catchStep]
      by_cases hi : 0 < i
      · rw [if_pos hi, if_pos hi]
        rw [etaCatch_eq_spec _ _ _ _ hinv]
      · rw [if_neg hi, if_neg hi]
    | some videoId =>
      cases hdup : (s.existingFiles.any fun key => key == fileNameOf videoId) with
      | true =>
        rw [processItem_dup b r t i u e s videoId hv hx hdup]
        have ha : etaAssigned u e s = true := by simp [etaAssigned, hv, hx, hdup]
        simp only [ha, and_true, dupStep]
        by_cases hi : 0 < i
        · rw [if_pos hi, if_pos hi]
          rw [etaSuccessDup_eq_spec _ _ _ _ hinv]
        · rw [if_neg hi, if_neg hi]
      | false =>
        cases hdl : downloadVideo e.dl with
        | false =>
          rw [processItem_dlFail b r t i u e s videoId hv hx hdup hdl]
          have ha : etaAssigned u e s = false := by simp [etaAssigned, hv, hx, hdup, hdl]
          simp only [ha, Bool.false_eq_true, and_false, if_false, dlFailStep]
        | true =>
          by_cases hr : r = ""
          · rw [processItem_regionEmpty b r t i u e s videoId hv hx hdup hdl hr]
            have ha : etaAssigned u e s = true := by simp [etaAssigned, hv, hx, hdup, hdl]
            simp only [ha, and_true, catchStep]
            by_cases hi : 0 < i
            · rw [if_pos hi, if_pos hi]
              rw [etaCatch_eq_spec _ _ _ _ hinv]
            · rw [if_neg hi, if_neg hi]
          · cases hu : e.uploadErr with
            | some m =>
              rw [processItem_uploadThrow b r t i u e s videoId m hv hx hdup hdl hr hu]
              have ha : etaAssigned u e s = true := by simp [etaAssigned, hv, hx, hdup, hdl]
              simp only [ha, and_true, catchStep]
              by_cases hi : 0 < i
              · rw [if_pos hi, if_pos hi]
                rw [etaCatch_eq_spec _ _ _ _ hinv]
              · rw [if_neg hi, if_neg hi]
            | none =>
              rw [processItem_success b r t i u e s videoId hv hx hdup hdl hr hu]
              have ha : etaAssigned u e s = true := by simp [etaAssigned, hv, hx, hdup, hdl]
              simp only [ha, and_true, successStep]
              by_cases hi : 0 < i
              · rw [if_pos hi, if_pos hi]
                have hpos : 0 < s.successCount + 1 := Nat.succ_pos _
                simp [etaSuccessDup, etaSpec, hpos]
              · rw [if_neg hi, if_neg hi]

/-- C4: an item for which every downloader backend fails leaves `Job.urls`
and `publicUrls` unchanged (the item contributes no URL) although the
download was attempted, and a run without a job-fatal error (the directory
creation succeeded) still terminates with status `completed`, not `failed`. -/
theorem c4_download_exhausted (b r : String) (t i : Nat) (u : String) (e : ItemEnv)
    (s : LoopState) (videoId : String)
    (hv : validUrl u = true) (hx : extractYoutubeId u = some videoId)
    (hdup : (s.existingFiles.any fun key => key == fileNameOf videoId) = false)
    (hdl : downloadVideo e.dl = false)
    (job0 : JobStatus) (videoUrls : List String) (bucket region : String)
    (env : PipelineEnv) (hmk : env.mkdtempOk = true) :
    (processItem b r t i u e s).1.job.urls = s.job.urls ∧
    (processItem b r t i u e s).1.publicUrls = s.publicUrls ∧
    (processItem b r t i u e s).2 = [Event.getInfo u, Event.download u] ∧
    (processVideosAsync job0 videoUrls bucket region env).job.status = Status.completed := by
  rw [processItem_dlFail b r t i u e s videoId hv hx hdup hdl]
  exact ⟨rfl, rfl, rfl, processVideosAsync_completed job0 videoUrls bucket region env hmk⟩

/-- C5: a submission whose `videoUrls` is not an array (`none`) or is the
empty array fails synchronously with the validation error before any job is
created, leaving the job registry unchanged. -/
theorem c5_empty_rejected (videoUrls : Option (List String)) (bucketName : Option String)
    (awsBucket : String) (registry : List (String × JobStatus)) (newJobId : String)
    (now : Nat) (h : videoUrls = none ∨ videoUrls = some []) :
    uploadVideosS3Handler videoUrls bucketName awsBucket registry newJobId now =
      (registry, Except.error "videoUrls must be a non-empty array of YouTube URLs") := by
  rcases h with rfl | rfl <;> simp [uploadVideosS3Handler]

/-- C6: on every run whose ephemeral directory was created, the pipeline
creates it exactly once, removes it exactly once, the removal is its last
external action, and the outcome of the removal (`rmOk`) has no effect
whatsoever on the run — in particular a failed removal changes neither the
job's status nor its error. -/
theorem c6_cleanup (job0 : JobStatus) (videoUrls : List String) (bucket region : String)
    (env : PipelineEnv) (rb : Bool) (hmk : env.mkdtempOk = true) :
    (processVideosAsync job0 videoUrls bucket region env).events.count Event.rmTemp = 1 ∧
    (processVideosAsync job0 videoUrls bucket region env).events.count Event.mkdtemp = 1 ∧
    (processVideosAsync job0 videoUrls bucket region env).events.getLast?
        = some Event.rmTemp ∧
    processVideosAsync job0 videoUrls bucket region env =
      processVideosAsync job0 videoUrls bucket region { env with rmOk := rb } := by
  refine ⟨?_, ?_, ?_, rfl⟩
  · unfold processVideosAsync
    rw [hmk]
    simp [List.count_append, List.count_cons,
      runItems_count_rmTemp bucket region videoUrls.length (videoUrls.zip env.items)]
  · unfold processVideosAsync
    rw [hmk]
    simp [List.count_append, List.count_cons,
      runItems_count_mkdtemp bucket region videoUrls.length (videoUrls.zip env.items)]
  · unfold processVideosAsync
    rw [hmk]
    dsimp only
    rw [List.getLast?_append_cons]
    rfl

/-- C7: when an earlier item of the same batch extracted the same canonical
id, was not itself a duplicate, and was downloaded and published
successfully, its destination key joins the in-memory snapshot, so a later
item with that id goes through the duplicate path — no external call, and
the synthesized durable URL is appended to `Job.urls` — even though the key
was absent from the snapshot when the earlier item ran. -/
theorem c7_intra_batch_dedup (b r : String) (t : Nat) (s0 : LoopState)
    (as bs : List (String × ItemEnv)) (u1 u2 : String) (e1 e2 : ItemEnv) (videoId : String)
    (hv1 : validUrl u1 = true) (hx1 : extractYoutubeId u1 = some videoId)
    (hv2 : validUrl u2 = true) (hx2 : extractYoutubeId u2 = some videoId)
    (hfresh : ((runState b r t 0 as s0).existingFiles.any
        fun key => key == fileNameOf videoId) = false)
    (hdl : downloadVideo e1.dl = true) (hr : ¬r = "") (hu : e1.uploadErr = none) :
    (processItem b r t (as ++ (u1, e1) :: bs).length u2 e2
        (runState b r t 0 (as ++ (u1, e1) :: bs) s0)).2 = [] ∧
    (processItem b r t (as ++ (u1, e1) :: bs).length u2 e2
        (runState b r t 0 (as ++ (u1, e1) :: bs) s0)).1.job.urls =
      (runState b r t 0 (as ++ (u1, e1) :: bs) s0).job.urls ++
        [s3Url b r (fileNameOf videoId)] := by
  have hsplit : runState b r t 0 (as ++ (u1, e1) :: bs) s0 =
      (runItems b r t (as.length + 1) bs
        (processItem b r t as.length u1 e1 (runState b r t 0 as s0)).1).1 := by
    unfold runState
    rw [runItems_fst_append b r t as ((u1, e1) :: bs) 0 s0]
    simp only [runItems, Nat.zero_add]
  have hsucc := processItem_success b r t as.length u1 e1 (runState b r t 0 as s0)
    videoId hv1 hx1 hfresh hdl hr hu
  have hmem : fileNameOf videoId ∈
      (processItem b r t as.length u1 e1 (runState b r t 0 as s0)).1.existingFiles := by
    rw [hsucc]
    simp [successStep]
  have hmem2 : fileNameOf videoId ∈
      (runState b r t 0 (as ++ (u1, e1) :: bs) s0).existingFiles := by
    rw [hsplit]
    exact runItems_existing_mem b r t bs (as.length + 1) _ _ hmem
  have hdup2 : ((runState b r t 0 (as ++ (u1, e1) :: bs) s0).existingFiles.any
      fun key => key == fileNameOf videoId) = true :=
    (anyKey_iff_mem _ _).mpr hmem2
  rw [processItem_dup b r t (as ++ (u1, e1) :: bs).length u2 e2 _ videoId hv2 hx2 hdup2]
  exact ⟨rfl, rfl⟩

/-- C8: every registry snapshot written during and after processing (the job
starts with no URLs) satisfies `urls.length ≤ progress.current`. -/
theorem c8_urls_le_current (job0 : JobStatus) (videoUrls : List String)
    (bucket region : String) (env : PipelineEnv) (hu : job0.urls = []) :
    urlsLeCurrent (processVideosAsync job0 videoUrls bucket region env).trace = true := by
  unfold processVideosAsync
  cases hmk : env.mkdtempOk with
  | false => simp [urlsLeCurrent, currOf, hu]
  | true =>
    rw [urlsLeCurrent, List.all_eq_true]
    intro j hj
    simp only [List.mem_cons, List.mem_append] at hj
    have hb := runItems_urls_bound bucket region videoUrls.length (videoUrls.zip env.items) 0
      { job := { job0 with
          status := Status.processing
          progress := some { current := 0, total := videoUrls.length, percentage := 0 } }
        publicUrls := [], totalProcessingTime := 0, successCount := 0
        existingFiles := match env.listResult with
          | Except.ok keys => keys
          | Except.error _ => [] }
      (by simp [hu])
    rcases hj with (h1 | h2) | h3 | h4
    · rw [h1]
      simp [currOf, hu]
    · exact decide_eq_true (hb.1 j h2)
    · rw [h3]
      refine decide_eq_true ?_
      have hk : (videoUrls.zip env.items).length ≤ videoUrls.length := by
        rw [List.length_zip]
        omega
      have hlen := hb.2
      simp only [currOf, Option.map_some', Option.getD_some]
      omega
    · exact absurd h4 (List.not_mem_nil _)

/-- C9: the destination-key derivation is a pure function of the canonical
identifier: `fileNameOf` is exactly the `youtube_` / `.mp4` wrapping, and any
two items — in any jobs, states, positions or buckets — whose references
extract the same id perform uploads only under that one key. -/
theorem c9_key_deterministic (b1 r1 : String) (t1 i1 : Nat) (u1 : String) (e1 : ItemEnv)
    (s1 : LoopState) (b2 r2 : String) (t2 i2 : Nat) (u2 : String) (e2 : ItemEnv)
    (s2 : LoopState) (videoId : String)
    (hx1 : extractYoutubeId u1 = some videoId) (hx2 : extractYoutubeId u2 = some videoId) :
    fileNameOf videoId = "youtube_" ++ videoId ++ ".mp4" ∧
    ((uploadKeys (processItem b1 r1 t1 i1 u1 e1 s1).2).all
        fun k => k == "youtube_" ++ videoId ++ ".mp4") = true ∧
    ((uploadKeys (processItem b2 r2 t2 i2 u2 e2 s2).2).all
        fun k => k == "youtube_" ++ videoId ++ ".mp4") = true :=
  ⟨rfl, processItem_uploadKeys b1 r1 t1 i1 u1 e1 s1 videoId hx1,
    processItem_uploadKeys b2 r2 t2 i2 u2 e2 s2 videoId hx2⟩

/-- C10: when the initial S3 listing fails, the run equals the run with an
empty listing (the dedup snapshot starts empty), the job still terminates
`completed` rather than `failed`, and an item that downloads and uploads
successfully is downloaded and uploaded — whatever the destination store
actually contains, since the store is only consulted through the listing. -/
theorem c10_list_failure (job0 : JobStatus) (u : String) (us : List String)
    (bucket region : String) (env : PipelineEnv) (e : ItemEnv) (es : List ItemEnv)
    (videoId msg : String)
    (hmk : env.mkdtempOk = true) (hlist : env.listResult = Except.error msg)
    (hitems : env.items = e :: es)
    (hv : validUrl u = true) (hx : extractYoutubeId u = some videoId)
    (hdl : downloadVideo e.dl = true) (hr : ¬region = "") (hu : e.uploadErr = none) :
    (processVideosAsync job0 (u :: us) bucket region env).job.status = Status.completed ∧
    processVideosAsync job0 (u :: us) bucket region env =
      processVideosAsync job0 (u :: us) bucket region
        { env with listResult := Except.ok [] } ∧
    Event.download u ∈ (processVideosAsync job0 (u :: us) bucket region env).events ∧
    Event.upload (fileNameOf videoId) ∈
      (processVideosAsync job0 (u :: us) bucket region env).events := by
  refine ⟨processVideosAsync_completed _ _ _ _ _ hmk, ?_, ?_⟩
  · unfold processVideosAsync
    rw [hlist]
  · unfold processVideosAsync
    rw [hmk, hlist, hitems]
    dsimp only
    rw [List.zip_cons_cons]
    simp only [runItems]
    rw [processItem_success bucket region (u :: us).length 0 u e
      { job := { job0 with
          status := Status.processing
          progress := some { current := 0, total := (u :: us).length, percentage := 0 } }
        publicUrls := [], totalProcessingTime := 0, successCount := 0
        existingFiles := [] } videoId hv hx rfl hdl hr hu]
    constructor
    · simp
    · simp
/-- C2 witness: the second reference of a two-item batch whose key is already
in the snapshot takes the duplicate path at concrete inputs. -/
theorem c2_witness :
    (processItem "bkt" "us-west-2" 2 0 wUrl wEnvOk wState).2 = [] ∧
    (processItem "bkt" "us-west-2" 2 0 wUrl wEnvOk wState).1.job.urls
        = wState.job.urls ++ [s3Url "bkt" "us-west-2" (fileNameOf wId)] ∧
    currOf (processItem "bkt" "us-west-2" 2 0 wUrl wEnvOk wState).1.job
        = currOf wState.job + 1 :=
  c2_duplicate "bkt" "us-west-2" 2 0 wUrl wEnvOk wState wId
    { current := 0, total := 2, percentage := 0 }
    (by decide) (by decide) (by decide) (by decide) (by decide)

/-- C3 witness: the ETA equation evaluated at item index 1 of a three-item
batch with a successful upload. -/
theorem c3_witness :
    (processItem "bkt" "us-west-2" 3 1 wUrl wEnvOk wStateEmpty).1.job.estimatedTimeRemaining =
      if 0 < 1 ∧ etaAssigned wUrl wEnvOk wStateEmpty = true then
        some (etaSpec 3 1
          (processItem "bkt" "us-west-2" 3 1 wUrl wEnvOk wStateEmpty).1.totalProcessingTime
          (processItem "bkt" "us-west-2" 3 1 wUrl wEnvOk wStateEmpty).1.successCount)
      else wStateEmpty.job.estimatedTimeRemaining :=
  c3_eta "bkt" "us-west-2" 3 1 wUrl wEnvOk wStateEmpty (by decide)

/-- C4 witness: a concrete item on which both downloader backends fail,
inside a concrete run that still completes. -/
theorem c4_witness :
    (processItem "bkt" "us-west-2" 1 0 wUrl wEnvDlFail wStateEmpty).1.job.urls
        = wStateEmpty.job.urls ∧
    (processItem "bkt" "us-west-2" 1 0 wUrl wEnvDlFail wStateEmpty).1.publicUrls
        = wStateEmpty.publicUrls ∧
    (processItem "bkt" "us-west-2" 1 0 wUrl wEnvDlFail wStateEmpty).2
        = [Event.getInfo wUrl, Event.download wUrl] ∧
    (processVideosAsync (initialJob "job-1" 0) [wUrl] "bkt" "us-west-2" wPipeEnv).job.status
        = Status.completed :=
  c4_download_exhausted "bkt" "us-west-2" 1 0 wUrl wEnvDlFail wStateEmpty wId
    (by decide) (by decide) (by decide) (by decide)
    (initialJob "job-1" 0) [wUrl] "bkt" "us-west-2" wPipeEnv (by decide)

/-- C5 witness: submitting a non-array `videoUrls` over an empty registry. -/
theorem c5_witness :
    uploadVideosS3Handler none none "youtube-video-000" [] "job-1" 0 =
      ([], Except.error "videoUrls must be a non-empty array of YouTube URLs") :=
  c5_empty_rejected none none "youtube-video-000" [] "job-1" 0 (Or.inl rfl)

/-- C6 witness: cleanup happens exactly once, last, on a concrete clean run,
and failing the removal changes nothing. -/
theorem c6_witness :
    (processVideosAsync (initialJob "job-1" 0) [wUrl] "bkt" "us-west-2" wPipeEnv).events.count
        Event.rmTemp = 1 ∧
    (processVideosAsync (initialJob "job-1" 0) [wUrl] "bkt" "us-west-2" wPipeEnv).events.count
        Event.mkdtemp = 1 ∧
    (processVideosAsync (initialJob "job-1" 0) [wUrl] "bkt" "us-west-2" wPipeEnv).events.getLast?
        = some Event.rmTemp ∧
    processVideosAsync (initialJob "job-1" 0) [wUrl] "bkt" "us-west-2" wPipeEnv =
      processVideosAsync (initialJob "job-1" 0) [wUrl] "bkt" "us-west-2"
        { wPipeEnv with rmOk := false } :=
  c6_cleanup (initialJob "job-1" 0) [wUrl] "bkt" "us-west-2" wPipeEnv false (by decide)

/-- C7 witness: a two-item batch repeating the same reference; the second
occurrence is deduplicated by the key the first one published. -/
theorem c7_witness :
    (processItem "bkt" "us-west-2" 2 (([] ++ (wUrl, wEnvOk) :: []).length) wUrl wEnvOk
        (runState "bkt" "us-west-2" 2 0 ([] ++ (wUrl, wEnvOk) :: []) wStateEmpty)).2 = [] ∧
    (processItem "bkt" "us-west-2" 2 (([] ++ (wUrl, wEnvOk) :: []).length) wUrl wEnvOk
        (runState "bkt" "us-west-2" 2 0 ([] ++ (wUrl, wEnvOk) :: []) wStateEmpty)).1.job.urls =
      (runState "bkt" "us-west-2" 2 0 ([] ++ (wUrl, wEnvOk) :: []) wStateEmpty).job.urls ++
        [s3Url "bkt" "us-west-2" (fileNameOf wId)] :=
  c7_intra_batch_dedup "bkt" "us-west-2" 2 wStateEmpty [] [] wUrl wUrl wEnvOk wEnvOk wId
    (by decide) (by decide) (by decide) (by decide) (by decide) (by decide) (by decide)
    (by decide)

/-- C8 witness: the inequality over the whole trace of a concrete clean
two-item run. -/
theorem c8_witness :
    urlsLeCurrent (processVideosAsync (initialJob "job-1" 0) [wUrl, wUrl] "bkt" "us-west-2"
        wPipeEnv).trace = true :=
  c8_urls_le_current (initialJob "job-1" 0) [wUrl, wUrl] "bkt" "us-west-2" wPipeEnv rfl

/-- C9 witness: two items in different jobs, positions and states extracting
the same id use the single derived key. -/
theorem c9_witness :
    fileNameOf wId = "youtube_" ++ wId ++ ".mp4" ∧
    ((uploadKeys (processItem "bkt" "us-west-2" 2 0 wUrl wEnvOk wStateEmpty).2).all
        fun k => k == "youtube_" ++ wId ++ ".mp4") = true ∧
    ((uploadKeys (processItem "b2" "eu-west-1" 5 3 wUrl wEnvDlFail wState).2).all
        fun k => k == "youtube_" ++ wId ++ ".mp4") = true :=
  c9_key_deterministic "bkt" "us-west-2" 2 0 wUrl wEnvOk wStateEmpty
    "b2" "eu-west-1" 5 3 wUrl wEnvDlFail wState wId (by decide) (by decide)

/-- C10 witness: a concrete run whose listing fails still completes, equals
the empty-listing run, and downloads and uploads its item. -/
theorem c10_witness :
    (processVideosAsync (initialJob "job-1" 0) [wUrl] "bkt" "us-west-2" wListFailEnv).job.status
        = Status.completed ∧
    processVideosAsync (initialJob "job-1" 0) [wUrl] "bkt" "us-west-2" wListFailEnv =
      processVideosAsync (initialJob "job-1" 0) [wUrl] "bkt" "us-west-2"
        { wListFailEnv with listResult := Except.ok [] } ∧
    Event.download wUrl ∈
      (processVideosAsync (initialJob "job-1" 0) [wUrl] "bkt" "us-west-2" wListFailEnv).events ∧
    Event.upload (fileNameOf wId) ∈
      (processVideosAsync (initialJob "job-1" 0) [wUrl] "bkt" "us-west-2" wListFailEnv).events :=
  c10_list_failure (initialJob "job-1" 0) wUrl [] "bkt" "us-west-2" wListFailEnv wEnvOk []
    wId "AccessDenied" (by decide) rfl rfl (by decide) (by decide)
    (by decide) (by decide) (by decide)

end YtUploader
